import Mathlib

/-!
MixedMemBestFitAllocator: a shallow embedding of
`paddle/fluid/memory/allocation/mixed_mem_best_fit_allocator.{h,cc}`.

The allocator object is a record of its four data members.  The two backing
allocators are external: each is a state type together with the member
functions the code calls on it, and every theorem quantifies over all such
behaviours.  A smart pointer member is `Option` of the pointee state (`none`
is `nullptr`).  The process-wide `MemEvenRecorder` and a ghost log of the calls
made on collaborators travel with the state, so that "is invoked" and "is not
invoked" are statements about that log.

`VLOG` / `LOG(WARNING)` lines (and the `CpuMaxAllocSize()` query that only
feeds one of them) are diagnostics and are not part of the model.
-/

namespace MixedMem

/-! ## Data model -/

/-- Modelled from the spec: `platform::Place` (place.h is outside the sources).
The spec names `Device(deviceId)` and `HostPinned` and speaks of "any other
place"; the remaining constructors stand for those other tags. -/
inductive Place where
  | CUDAPlace (device : Int)
  | CUDAPinnedPlace
  | CPUPlace
  | OtherPlace (tag : Nat)
  deriving DecidableEq, Repr

/-- Modelled from the spec: `platform::is_gpu_place`, true exactly on a device
place. -/
def is_gpu_place : Place → Bool
  | .CUDAPlace _ => true
  | _ => false

/-- Modelled from the spec: `platform::is_cuda_pinned_place`, true exactly on
the host-pinned place. -/
def is_cuda_pinned_place : Place → Bool
  | .CUDAPinnedPlace => true
  | _ => false

/-- Modelled from the spec: the `Allocation` record (allocator.h is outside the
sources): raw pointer, byte size and place.  `addr` is the address of the record
itself, which is the identity the telemetry recorder is keyed by
(`static_cast<void*>(tmp_alloc)`).  An `Allocation*` is `Option Allocation`,
with `none` for `nullptr`. -/
structure Allocation where
  addr : Nat
  ptr : Nat
  size : Nat
  place : Place
  deriving DecidableEq, Repr

/-- The C++ exceptions that can cross `AllocateImpl`: `BadAlloc` (the
out-of-memory signal of an allocator), the two `EnforceNotMet` kinds the
function raises itself, and anything else. -/
inductive Exception where
  | BadAlloc (msg : String)
  | InvalidArgument (msg : String)
  | ResourceExhausted (msg : String)
  | Other (what : String)
  deriving DecidableEq, Repr

/-- Whether `catch (const BadAlloc&)` takes the exception. -/
def Exception.isBadAlloc : Exception → Bool
  | .BadAlloc _ => true
  | _ => false

/-- How a member function call ends: it returns a value, it throws, or it
dereferences a null smart pointer.  C++ gives the last case no meaning; the
model stops the call there and keeps the state reached so far. -/
inductive Outcome (α : Type) where
  | returned (a : α)
  | threw (e : Exception)
  | nullDeref
  deriving DecidableEq, Repr

/-- Modelled from the spec: the Backing Device Allocator contract
(`Allocator` of allocator.h): `allocate(size)` gives an allocation or fails,
`free(Allocation)`, `release(Place) -> uint64`.  `δ` is the state of the device
tier.  `Allocate(size).release()` may be a null record. -/
structure Allocator (δ : Type) where
  Allocate : δ → Nat → Except Exception (Option Allocation) × δ
  Free : δ → Allocation → δ
  Release : δ → Place → Nat × δ

/-- Modelled from the spec: the Backing Host-Pinned Allocator contract
(`detail::BuddyAllocator`): `alloc(size) -> pointer | null`, `free(pointer)`,
`release() -> uint64`.  `η` is the state of the pinned pool; pointer `0` is
`nullptr`. -/
structure BuddyAllocator (η : Type) where
  Alloc : η → Nat → Nat × η
  Free : η → Nat → η
  Release : η → Nat × η

/-- One entry of the telemetry recorder. -/
structure MemRecord where
  addr : Nat
  place : Place
  size : Nat
  deriving DecidableEq, Repr

/-- Modelled from the spec: `MemEvenRecorder::PushMemRecord(identity, place,
size)` registers one entry (profiler.h is outside the sources). -/
def PushMemRecord (records : List MemRecord) (addr : Nat) (place : Place) (size : Nat) :
    List MemRecord :=
  ⟨addr, place, size⟩ :: records

/-- Modelled from the spec: `MemEvenRecorder::PopMemRecord(identity, place)`
removes the entry kept for that identity and place. -/
def PopMemRecord (records : List MemRecord) (addr : Nat) (place : Place) : List MemRecord :=
  records.filter (fun r => !(r.addr == addr && r.place == place))

/-- A call made on a collaborator (ghost log). -/
inductive Call where
  | deviceAllocate (size : Nat)
  | deviceFree (a : Allocation)
  | deviceRelease (place : Place)
  | hostAlloc (size : Nat)
  | hostFree (ptr : Nat)
  | hostRelease
  | newAllocation (a : Allocation)
  | deleteAllocation (a : Allocation)
  | pushMemRecord (addr : Nat) (place : Place) (size : Nat)
  | popMemRecord (addr : Nat) (place : Place)
  deriving DecidableEq, Repr

/-- The allocator object (`reach_limit_`, `device_id_`, `device_allocator_`,
`host_allocator_`), the recorder singleton (`records`) and the ghost call log
(`calls`). -/
structure State (δ η : Type) where
  reach_limit_ : Bool
  device_id_ : Int
  device_allocator_ : Option δ
  host_allocator_ : Option η
  records : List MemRecord
  calls : List Call

/-- The constructor: stores `device_id` and `device` (no null check), builds
the pinned pool (initial pool state `pool`), and `reach_limit_` starts `false`.
`records` is the recorder's content at that moment. -/
def MixedMemBestFitAllocator {δ η : Type} (device_id : Int) (device : Option δ) (pool : η)
    (records : List MemRecord) : State δ η :=
  { reach_limit_ := false
    device_id_ := device_id
    device_allocator_ := device
    host_allocator_ := some pool
    records := records
    calls := [] }

/-! ## Operations -/

/-- Lines 45-57 of `AllocateImpl`: the device attempt.  `Sum.inl` is a finished
call (return or rethrow); `Sum.inr` is the state with which control reaches
line 59. -/
def deviceAttempt {δ η : Type} (dev : Allocator δ) (s : State δ η) (d : δ) (size : Nat) :
    (Outcome (Option Allocation) × State δ η) ⊕ State δ η :=
  if !s.reach_limit_ then
    match dev.Allocate d size with
    | (.ok a, d') =>
      .inl (.returned a,
        { s with device_allocator_ := some d', calls := s.calls ++ [.deviceAllocate size] })
    | (.error (.BadAlloc _), d') =>
      .inr { s with device_allocator_ := some d', calls := s.calls ++ [.deviceAllocate size],
                    reach_limit_ := true }
    | (.error e, d') =>
      .inl (.threw e,
        { s with device_allocator_ := some d', calls := s.calls ++ [.deviceAllocate size] })
  else
    .inr s

/-- Lines 60-80 of `AllocateImpl`: the host attempt.  `addr` is the address
`new Allocation` gives the record. -/
def hostAttempt {δ η : Type} (host : BuddyAllocator η) (s : State δ η) (size addr : Nat) :
    Outcome (Option Allocation) × State δ η :=
  match s.host_allocator_ with
  | none => (.nullDeref, s)
  | some h =>
    let r := host.Alloc h size
    let s1 : State δ η :=
      { s with host_allocator_ := some r.2, calls := s.calls ++ [.hostAlloc size] }
    if r.1 = 0 then
      (.threw (.ResourceExhausted "cudaHostAlloc failed"), s1)
    else
      let tmp_alloc : Allocation := ⟨addr, r.1, size, .CUDAPinnedPlace⟩
      (.returned (some tmp_alloc),
        { s1 with records := PushMemRecord s1.records addr .CUDAPinnedPlace size,
                  calls := s1.calls ++
                    [.newAllocation tmp_alloc, .pushMemRecord addr .CUDAPinnedPlace size] })

/-- The member function `MixedMemBestFitAllocator::AllocateImpl(size)`: the two
null checks, then the device attempt, then the host attempt, then the trailing
`return nullptr`. -/
def AllocateImpl {δ η : Type} (dev : Allocator δ) (host : BuddyAllocator η) (s : State δ η)
    (size addr : Nat) : Outcome (Option Allocation) × State δ η :=
  match s.device_allocator_ with
  | none =>
    (.threw (.InvalidArgument
      "Underlying device allocator of MixedMemBestFitAllocator is nullptr"), s)
  | some d =>
    match s.host_allocator_ with
    | none =>
      (.threw (.InvalidArgument
        "Underlying host allocator of MixedMemBestFitAllocator is nullptr"), s)
    | some _ =>
      match deviceAttempt dev s d size with
      | .inl r => r
      | .inr s1 =>
        if s1.reach_limit_ then hostAttempt host s1 size addr
        else (.returned none, s1)

/-- The member function `MixedMemBestFitAllocator::FreeImpl(allocation)`; the
argument is a record, so a null `allocation` is outside the model. -/
def FreeImpl {δ η : Type} (dev : Allocator δ) (host : BuddyAllocator η) (s : State δ η)
    (allocation : Allocation) : Outcome Unit × State δ η :=
  let place := allocation.place
  if is_gpu_place place then
    match s.device_allocator_ with
    | none => (.nullDeref, s)
    | some d =>
      (.returned (),
        { s with device_allocator_ := some (dev.Free d allocation),
                 calls := s.calls ++ [.deviceFree allocation] })
  else if is_cuda_pinned_place place then
    match s.host_allocator_ with
    | none => (.nullDeref, s)
    | some h =>
      (.returned (),
        { s with host_allocator_ := some (host.Free h allocation.ptr),
                 records := PopMemRecord s.records allocation.addr place,
                 calls := s.calls ++
                   [.hostFree allocation.ptr, .popMemRecord allocation.addr place,
                    .deleteAllocation allocation] })
  else
    (.returned (), s)

/-- The member function `MixedMemBestFitAllocator::ReleaseImpl(place)`. -/
def ReleaseImpl {δ η : Type} (dev : Allocator δ) (host : BuddyAllocator η) (s : State δ η)
    (place : Place) : Outcome Nat × State δ η :=
  if is_gpu_place place then
    match s.device_allocator_ with
    | none => (.nullDeref, s)
    | some d =>
      let r := dev.Release d place
      (.returned r.1,
        { s with device_allocator_ := some r.2, calls := s.calls ++ [.deviceRelease place] })
  else if is_cuda_pinned_place place then
    match s.host_allocator_ with
    | none => (.nullDeref, s)
    | some h =>
      let r := host.Release h
      (.returned r.1,
        { s with host_allocator_ := some r.2, calls := s.calls ++ [.hostRelease] })
  else
    (.returned 0, s)

/-- One operation of a caller on the allocator. -/
inductive Op where
  | allocate (size addr : Nat)
  | free (allocation : Allocation)
  | release (place : Place)
  deriving DecidableEq, Repr

/-- The state after one operation, whatever its outcome. -/
def step {δ η : Type} (dev : Allocator δ) (host : BuddyAllocator η) (s : State δ η) :
    Op → State δ η
  | .allocate size addr => (AllocateImpl dev host s size addr).2
  | .free allocation => (FreeImpl dev host s allocation).2
  | .release place => (ReleaseImpl dev host s place).2

/-- The state after a finite sequence of operations. -/
def run {δ η : Type} (dev : Allocator δ) (host : BuddyAllocator η) (s : State δ η) :
    List Op → State δ η
  | [] => s
  | op :: ops => run dev host (step dev host s op) ops

/-! ## Concrete backing tiers of the scenarios -/

/-- Modelled from the spec: the device tier of Scenario 1, a pool of
`capacity` bytes serving device `device`; the state is the number of bytes in
use.  A request that would exceed the capacity fails with `BadAlloc`;
`Release` reports the bytes not in use. -/
def capacityDevice (device : Int) (capacity : Nat) : Allocator Nat where
  Allocate used size :=
    if used + size ≤ capacity then
      (.ok (some ⟨1000 + used, 4096 + used, size, .CUDAPlace device⟩), used + size)
    else (.error (.BadAlloc "out of device memory"), used)
  Free used a := used - a.size
  Release used _ := (capacity - used, used)

/-- Modelled from the spec: the pinned pool of Scenario 2; the state is the
number of bytes free, and a request larger than that returns the null
pointer. -/
def pinnedPool : BuddyAllocator Nat where
  Alloc free size := if size ≤ free then (8192 + free, free - size) else (0, free)
  Free free _ := free
  Release free := (free, 0)

/-- A device tier whose first request fails with an error that is not
out-of-memory and whose later requests all succeed; the state counts the
requests seen. -/
def flakyDevice : Allocator Nat where
  Allocate n size :=
    if n = 0 then (.error (.Other "unspecified launch failure"), 1)
    else (.ok (some ⟨1000 + n, 4096 + n, size, .CUDAPlace 0⟩), n + 1)
  Free n _ := n
  Release n _ := (0, n)

/-- The instance of Scenario 1: device 0, a device pool in which no byte is in
use yet, a pinned pool with 4096 bytes free, an empty recorder. -/
def scenario1 : State Nat Nat := MixedMemBestFitAllocator 0 (some 0) 4096 []

/-- The instance of Scenario 2: the latch is already set and the pinned pool
has 0 bytes free. -/
def scenario2 : State Nat Nat :=
  { reach_limit_ := true
    device_id_ := 0
    device_allocator_ := some 1000
    host_allocator_ := some 0
    records := []
    calls := [] }

/-! ## How the device attempt ends -/

variable {δ η : Type}

theorem deviceAttempt_of_latch (dev : Allocator δ) (s : State δ η) (d : δ) (size : Nat)
    (h : s.reach_limit_ = true) : deviceAttempt dev s d size = .inr s := by
  simp [deviceAttempt, h]

theorem deviceAttempt_ok (dev : Allocator δ) (s : State δ η) (d : δ) (size : Nat)
    (a : Option Allocation) (h : s.reach_limit_ = false)
    (ha : (dev.Allocate d size).1 = .ok a) :
    deviceAttempt dev s d size =
      .inl (.returned a,
        { s with device_allocator_ := some (dev.Allocate d size).2,
                 calls := s.calls ++ [.deviceAllocate size] }) := by
  rcases hx : dev.Allocate d size with ⟨r, d'⟩
  rw [hx] at ha
  simp only at ha
  subst ha
  simp [deviceAttempt, h, hx]

theorem deviceAttempt_badAlloc (dev : Allocator δ) (s : State δ η) (d : δ) (size : Nat)
    (msg : String) (h : s.reach_limit_ = false)
    (ha : (dev.Allocate d size).1 = .error (.BadAlloc msg)) :
    deviceAttempt dev s d size =
      .inr { s with device_allocator_ := some (dev.Allocate d size).2,
                    calls := s.calls ++ [.deviceAllocate size],
                    reach_limit_ := true } := by
  rcases hx : dev.Allocate d size with ⟨r, d'⟩
  rw [hx] at ha
  simp only at ha
  subst ha
  simp [deviceAttempt, h, hx]

theorem deviceAttempt_other (dev : Allocator δ) (s : State δ η) (d : δ) (size : Nat)
    (e : Exception) (h : s.reach_limit_ = false)
    (ha : (dev.Allocate d size).1 = .error e) (he : e.isBadAlloc = false) :
    deviceAttempt dev s d size =
      .inl (.threw e,
        { s with device_allocator_ := some (dev.Allocate d size).2,
                 calls := s.calls ++ [.deviceAllocate size] }) := by
  rcases hx : dev.Allocate d size with ⟨r, d'⟩
  rw [hx] at ha
  simp only at ha
  subst ha
  cases e <;> simp_all [deviceAttempt, Exception.isBadAlloc]

/-- Control reaches line 59 from the device attempt only with the latch set. -/
theorem deviceAttempt_inr_latch (dev : Allocator δ) (s : State δ η) (d : δ) (size : Nat)
    (s1 : State δ η) (h : deviceAttempt dev s d size = .inr s1) : s1.reach_limit_ = true := by
  cases hl : s.reach_limit_
  · rcases hx : (dev.Allocate d size).1 with e | a
    · cases hb : e.isBadAlloc
      · rw [deviceAttempt_other dev s d size e hl hx hb] at h
        cases h
      · cases e <;> simp [Exception.isBadAlloc] at hb
        rename_i msg
        rw [deviceAttempt_badAlloc dev s d size msg hl hx] at h
        cases h
        rfl
    · rw [deviceAttempt_ok dev s d size a hl hx] at h
      cases h
  · rw [deviceAttempt_of_latch dev s d size hl] at h
    cases h
    exact hl

theorem hostAttempt_latch (host : BuddyAllocator η) (s : State δ η) (size addr : Nat) :
    (hostAttempt host s size addr).2.reach_limit_ = s.reach_limit_ := by
  unfold hostAttempt
  cases s.host_allocator_ with
  | none => rfl
  | some h =>
    simp only
    split <;> rfl

theorem AllocateImpl_latch (dev : Allocator δ) (host : BuddyAllocator η) (s : State δ η)
    (size addr : Nat) (h : s.reach_limit_ = true) :
    (AllocateImpl dev host s size addr).2.reach_limit_ = true := by
  unfold AllocateImpl
  cases s.device_allocator_ with
  | none => exact h
  | some d =>
    cases s.host_allocator_ with
    | none => exact h
    | some p =>
      simp only [deviceAttempt_of_latch dev s d size h, h, if_true]
      rw [hostAttempt_latch]
      exact h

theorem FreeImpl_latch (dev : Allocator δ) (host : BuddyAllocator η) (s : State δ η)
    (a : Allocation) : (FreeImpl dev host s a).2.reach_limit_ = s.reach_limit_ := by
  unfold FreeImpl
  simp only
  split
  · cases s.device_allocator_ <;> rfl
  · split
    · cases s.host_allocator_ <;> rfl
    · rfl

theorem ReleaseImpl_latch (dev : Allocator δ) (host : BuddyAllocator η) (s : State δ η)
    (place : Place) : (ReleaseImpl dev host s place).2.reach_limit_ = s.reach_limit_ := by
  unfold ReleaseImpl
  split
  · cases s.device_allocator_ <;> rfl
  · split
    · cases s.host_allocator_ <;> rfl
    · rfl

theorem step_latch (dev : Allocator δ) (host : BuddyAllocator η) (s : State δ η) (op : Op)
    (h : s.reach_limit_ = true) : (step dev host s op).reach_limit_ = true := by
  cases op with
  | allocate size addr => exact AllocateImpl_latch dev host s size addr h
  | free a => exact (FreeImpl_latch dev host s a).trans h
  | release p => exact (ReleaseImpl_latch dev host s p).trans h

theorem run_latch (dev : Allocator δ) (host : BuddyAllocator η) (ops : List Op) :
    ∀ s : State δ η, s.reach_limit_ = true → (run dev host s ops).reach_limit_ = true := by
  induction ops with
  | nil => intro s h; exact h
  | cons op ops ih => intro s h; exact ih _ (step_latch dev host s op h)

theorem run_append (dev : Allocator δ) (host : BuddyAllocator η) (ops1 ops2 : List Op) :
    ∀ s : State δ η, run dev host s (ops1 ++ ops2) = run dev host (run dev host s ops1) ops2 := by
  induction ops1 with
  | nil => intro s; rfl
  | cons op ops ih => intro s; exact ih _

/-! ## How `AllocateImpl` and the host attempt end -/

theorem hostAttempt_null (host : BuddyAllocator η) (s : State δ η) (h : η) (size addr : Nat)
    (hh : s.host_allocator_ = some h) (hp : (host.Alloc h size).1 = 0) :
    hostAttempt host s size addr =
      (.threw (.ResourceExhausted "cudaHostAlloc failed"),
        { s with host_allocator_ := some (host.Alloc h size).2,
                 calls := s.calls ++ [.hostAlloc size] }) := by
  simp [hostAttempt, hh, hp]

theorem hostAttempt_ok (host : BuddyAllocator η) (s : State δ η) (h : η) (size addr : Nat)
    (hh : s.host_allocator_ = some h) (hp : (host.Alloc h size).1 ≠ 0) :
    hostAttempt host s size addr =
      (.returned (some ⟨addr, (host.Alloc h size).1, size, .CUDAPinnedPlace⟩),
        { s with host_allocator_ := some (host.Alloc h size).2,
                 records := ⟨addr, .CUDAPinnedPlace, size⟩ :: s.records,
                 calls := s.calls ++
                   [.hostAlloc size,
                    .newAllocation ⟨addr, (host.Alloc h size).1, size, .CUDAPinnedPlace⟩,
                    .pushMemRecord addr .CUDAPinnedPlace size] }) := by
  simp [hostAttempt, hh, hp, PushMemRecord]

theorem AllocateImpl_degraded (dev : Allocator δ) (host : BuddyAllocator η) (s : State δ η)
    (d : δ) (h : η) (size addr : Nat) (hl : s.reach_limit_ = true)
    (hd : s.device_allocator_ = some d) (hh : s.host_allocator_ = some h) :
    AllocateImpl dev host s size addr = hostAttempt host s size addr := by
  simp [AllocateImpl, hd, hh, deviceAttempt_of_latch dev s d size hl, hl]

theorem AllocateImpl_fallback (dev : Allocator δ) (host : BuddyAllocator η) (s : State δ η)
    (d : δ) (h : η) (size addr : Nat) (msg : String) (hl : s.reach_limit_ = false)
    (hd : s.device_allocator_ = some d) (hh : s.host_allocator_ = some h)
    (ha : (dev.Allocate d size).1 = .error (.BadAlloc msg)) :
    AllocateImpl dev host s size addr =
      hostAttempt host
        { s with device_allocator_ := some (dev.Allocate d size).2,
                 calls := s.calls ++ [.deviceAllocate size],
                 reach_limit_ := true } size addr := by
  simp [AllocateImpl, hd, hh, deviceAttempt_badAlloc dev s d size msg hl ha]

theorem AllocateImpl_device_ok (dev : Allocator δ) (host : BuddyAllocator η) (s : State δ η)
    (d : δ) (h : η) (size addr : Nat) (a : Option Allocation) (hl : s.reach_limit_ = false)
    (hd : s.device_allocator_ = some d) (hh : s.host_allocator_ = some h)
    (ha : (dev.Allocate d size).1 = .ok a) :
    AllocateImpl dev host s size addr =
      (.returned a,
        { s with device_allocator_ := some (dev.Allocate d size).2,
                 calls := s.calls ++ [.deviceAllocate size] }) := by
  simp [AllocateImpl, hd, hh, deviceAttempt_ok dev s d size a hl ha]

theorem AllocateImpl_device_other (dev : Allocator δ) (host : BuddyAllocator η)
    (s : State δ η) (d : δ) (h : η) (size addr : Nat) (e : Exception)
    (hl : s.reach_limit_ = false) (hd : s.device_allocator_ = some d)
    (hh : s.host_allocator_ = some h) (ha : (dev.Allocate d size).1 = .error e)
    (he : e.isBadAlloc = false) :
    AllocateImpl dev host s size addr =
      (.threw e,
        { s with device_allocator_ := some (dev.Allocate d size).2,
                 calls := s.calls ++ [.deviceAllocate size] }) := by
  simp [AllocateImpl, hd, hh, deviceAttempt_other dev s d size e hl ha he]

/-- With the latch set, `AllocateImpl` leaves the device allocator alone, calls
nothing on it, and only ever hands out pinned records. -/
theorem AllocateImpl_degraded_host_only (dev : Allocator δ) (host : BuddyAllocator η)
    (s : State δ η) (size addr : Nat) (hl : s.reach_limit_ = true) :
    (AllocateImpl dev host s size addr).2.device_allocator_ = s.device_allocator_ ∧
    (∃ cs, (AllocateImpl dev host s size addr).2.calls = s.calls ++ cs ∧
      ∀ n, Call.deviceAllocate n ∉ cs) ∧
    (∀ a, (AllocateImpl dev host s size addr).1 = .returned a →
      ∃ x, a = some x ∧ x.place = .CUDAPinnedPlace ∧ x.size = size) := by
  cases hd : s.device_allocator_ with
  | none =>
    have e : AllocateImpl dev host s size addr =
        (.threw (.InvalidArgument
          "Underlying device allocator of MixedMemBestFitAllocator is nullptr"), s) := by
      simp [AllocateImpl, hd]
    rw [e]
    exact ⟨hd, ⟨[], by simp, by simp⟩, by simp⟩
  | some d =>
    cases hh : s.host_allocator_ with
    | none =>
      have e : AllocateImpl dev host s size addr =
          (.threw (.InvalidArgument
            "Underlying host allocator of MixedMemBestFitAllocator is nullptr"), s) := by
        simp [AllocateImpl, hd, hh]
      rw [e]
      exact ⟨hd, ⟨[], by simp, by simp⟩, by simp⟩
    | some h =>
      rw [AllocateImpl_degraded dev host s d h size addr hl hd hh]
      by_cases hp : (host.Alloc h size).1 = 0
      · rw [hostAttempt_null host s h size addr hh hp]
        exact ⟨hd, ⟨[.hostAlloc size], rfl, by simp⟩, by simp⟩
      · rw [hostAttempt_ok host s h size addr hh hp]
        refine ⟨hd, ⟨_, rfl, by simp⟩, ?_⟩
        intro a ha
        cases ha
        exact ⟨_, rfl, rfl, rfl⟩

/-! ## The claims -/

/-- C1 (latch monotonicity).  From any state whose latch `reach_limit_` is
set, and for any behaviour of the two backing tiers, the latch is still set
after `AllocateImpl`, `FreeImpl` or `ReleaseImpl` with any arguments, whatever
the outcome of the call, and after any finite sequence of them.  Hence along
any sequence run from the constructed state (latch clear), once the latch is
set after a prefix it is set after every longer prefix. -/
theorem latch_monotone (dev : Allocator δ) (host : BuddyAllocator η) (s : State δ η)
    (h : s.reach_limit_ = true) :
    (∀ size addr, (AllocateImpl dev host s size addr).2.reach_limit_ = true) ∧
    (∀ a, (FreeImpl dev host s a).2.reach_limit_ = true) ∧
    (∀ place, (ReleaseImpl dev host s place).2.reach_limit_ = true) ∧
    (∀ ops, (run dev host s ops).reach_limit_ = true) ∧
    (∀ (device_id : Int) (device : Option δ) (pool : η) (records : List MemRecord)
       (ops1 ops2 : List Op),
       (MixedMemBestFitAllocator device_id device pool records : State δ η).reach_limit_ = false ∧
       ((run dev host (MixedMemBestFitAllocator device_id device pool records) ops1).reach_limit_
          = true →
        (run dev host (MixedMemBestFitAllocator device_id device pool records)
          (ops1 ++ ops2)).reach_limit_ = true)) := by
  refine ⟨fun size addr => AllocateImpl_latch dev host s size addr h,
    fun a => (FreeImpl_latch dev host s a).trans h,
    fun p => (ReleaseImpl_latch dev host s p).trans h,
    fun ops => run_latch dev host ops s h, ?_⟩
  intro device_id device pool records ops1 ops2
  refine ⟨rfl, fun h1 => ?_⟩
  rw [run_append]
  exact run_latch dev host ops2 _ h1

/-- C1 at concrete inputs: from the state of Scenario 2 (latch set) a failing
allocate, a free, a release and a further allocate all leave the latch set. -/
theorem latch_monotone_example :
    scenario2.reach_limit_ = true ∧
    (AllocateImpl (capacityDevice 0 1000) pinnedPool scenario2 100 1).1
      = .threw (.ResourceExhausted "cudaHostAlloc failed") ∧
    (AllocateImpl (capacityDevice 0 1000) pinnedPool scenario2 100 1).2.reach_limit_ = true ∧
    (run (capacityDevice 0 1000) pinnedPool scenario2
      [.allocate 100 1, .free ⟨1000, 4096, 600, .CUDAPlace 0⟩, .release (.CUDAPlace 0),
       .release .CUDAPinnedPlace, .allocate 8 2]).reach_limit_ = true :=
  ⟨rfl, rfl,
    (latch_monotone (capacityDevice 0 1000) pinnedPool scenario2 rfl).1 100 1,
    (latch_monotone (capacityDevice 0 1000) pinnedPool scenario2 rfl).2.2.2.1 _⟩

/-- C3 (fallback within one call).  With the latch clear, when the device tier
answers `BadAlloc` for `size` and the pinned pool returns a non-null pointer,
`AllocateImpl(size)` returns (the device error is not surfaced) a new record
with that pointer, size `size` and place `CUDAPinnedPlace`; exactly one
telemetry record, keyed by that record with place `CUDAPinnedPlace` and size
`size`, is pushed; the latch is left set. -/
theorem fallback_within_one_call (dev : Allocator δ) (host : BuddyAllocator η)
    (s : State δ η) (d : δ) (h : η) (size addr : Nat) (msg : String)
    (hl : s.reach_limit_ = false) (hd : s.device_allocator_ = some d)
    (hh : s.host_allocator_ = some h)
    (ha : (dev.Allocate d size).1 = .error (.BadAlloc msg))
    (hp : (host.Alloc h size).1 ≠ 0) :
    AllocateImpl dev host s size addr =
      (.returned (some ⟨addr, (host.Alloc h size).1, size, .CUDAPinnedPlace⟩),
        { reach_limit_ := true
          device_id_ := s.device_id_
          device_allocator_ := some (dev.Allocate d size).2
          host_allocator_ := some (host.Alloc h size).2
          records := ⟨addr, .CUDAPinnedPlace, size⟩ :: s.records
          calls := s.calls ++
            [.deviceAllocate size, .hostAlloc size,
             .newAllocation ⟨addr, (host.Alloc h size).1, size, .CUDAPinnedPlace⟩,
             .pushMemRecord addr .CUDAPinnedPlace size] }) := by
  rw [AllocateImpl_fallback dev host s d h size addr msg hl hd hh ha]
  simp [hostAttempt, hh, hp, PushMemRecord]

/-- C3, Scenario 1: device capacity 1000, requests of 600 then 600.  The first
is served with place `CUDAPlace 0`; for the second the device answers
`BadAlloc`, and the call returns a pinned record of size 600 with the latch
set. -/
theorem fallback_scenario1 :
    (AllocateImpl (capacityDevice 0 1000) pinnedPool scenario1 600 1).1
        = .returned (some ⟨1000, 4096, 600, .CUDAPlace 0⟩) ∧
    (AllocateImpl (capacityDevice 0 1000) pinnedPool scenario1 600 1).2.reach_limit_ = false ∧
    ((capacityDevice 0 1000).Allocate 600 600).1 = .error (.BadAlloc "out of device memory") ∧
    (pinnedPool.Alloc 4096 600).1 ≠ 0 ∧
    AllocateImpl (capacityDevice 0 1000) pinnedPool
        (AllocateImpl (capacityDevice 0 1000) pinnedPool scenario1 600 1).2 600 2 =
      (.returned (some ⟨2, 12288, 600, .CUDAPinnedPlace⟩),
        { reach_limit_ := true
          device_id_ := 0
          device_allocator_ := some 600
          host_allocator_ := some 3496
          records := [⟨2, .CUDAPinnedPlace, 600⟩]
          calls := [.deviceAllocate 600, .deviceAllocate 600, .hostAlloc 600,
                    .newAllocation ⟨2, 12288, 600, .CUDAPinnedPlace⟩,
                    .pushMemRecord 2 .CUDAPinnedPlace 600] }) :=
  ⟨rfl, rfl, rfl, by decide,
    fallback_within_one_call (capacityDevice 0 1000) pinnedPool
      (AllocateImpl (capacityDevice 0 1000) pinnedPool scenario1 600 1).2 600 4096 600 2
      "out of device memory" rfl rfl rfl rfl (by decide)⟩

/-- C5 (host exhaustion is fatal and leaves the latch set).  When the pinned
pool returns the null pointer for `size`, `AllocateImpl(size)` throws
`ResourceExhausted`, returns no record, pushes no telemetry record, calls the
pinned pool exactly once, and the latch is set afterwards: both when the latch
was already set (the device tier is then not called), and when it was clear and
the device tier has just answered `BadAlloc`. -/
theorem host_exhaustion_fatal (dev : Allocator δ) (host : BuddyAllocator η)
    (s : State δ η) (d : δ) (h : η) (size addr : Nat)
    (hd : s.device_allocator_ = some d) (hh : s.host_allocator_ = some h)
    (hp : (host.Alloc h size).1 = 0) :
    (s.reach_limit_ = true →
      AllocateImpl dev host s size addr =
        (.threw (.ResourceExhausted "cudaHostAlloc failed"),
          { reach_limit_ := true
            device_id_ := s.device_id_
            device_allocator_ := s.device_allocator_
            host_allocator_ := some (host.Alloc h size).2
            records := s.records
            calls := s.calls ++ [.hostAlloc size] })) ∧
    (∀ msg, s.reach_limit_ = false → (dev.Allocate d size).1 = .error (.BadAlloc msg) →
      AllocateImpl dev host s size addr =
        (.threw (.ResourceExhausted "cudaHostAlloc failed"),
          { reach_limit_ := true
            device_id_ := s.device_id_
            device_allocator_ := some (dev.Allocate d size).2
            host_allocator_ := some (host.Alloc h size).2
            records := s.records
            calls := s.calls ++ [.deviceAllocate size, .hostAlloc size] })) := by
  constructor
  · intro hl
    rw [AllocateImpl_degraded dev host s d h size addr hl hd hh,
      hostAttempt_null host s h size addr hh hp]
    simp [hl]
  · intro msg hl ha
    rw [AllocateImpl_fallback dev host s d h size addr msg hl hd hh ha]
    simp [hostAttempt, hh, hp]

/-- C5, Scenario 2: latch set, pinned pool with 0 bytes free; `allocate(100)`
throws `ResourceExhausted` and the latch stays set.  Also the same pool behind a
full device tier with the latch still clear. -/
theorem host_exhaustion_scenario2 :
    scenario2.reach_limit_ = true ∧ (pinnedPool.Alloc 0 100).1 = 0 ∧
    AllocateImpl (capacityDevice 0 1000) pinnedPool scenario2 100 1 =
      (.threw (.ResourceExhausted "cudaHostAlloc failed"),
        { reach_limit_ := true
          device_id_ := 0
          device_allocator_ := some 1000
          host_allocator_ := some 0
          records := []
          calls := [.hostAlloc 100] }) ∧
    (AllocateImpl (capacityDevice 0 1000) pinnedPool
        { scenario2 with reach_limit_ := false } 100 1).1 =
      .threw (.ResourceExhausted "cudaHostAlloc failed") ∧
    (AllocateImpl (capacityDevice 0 1000) pinnedPool
        { scenario2 with reach_limit_ := false } 100 1).2.reach_limit_ = true :=
  ⟨rfl, rfl,
    (host_exhaustion_fatal (capacityDevice 0 1000) pinnedPool scenario2 1000 0 100 1
      rfl rfl rfl).1 rfl,
    congrArg Prod.fst
      ((host_exhaustion_fatal (capacityDevice 0 1000) pinnedPool
        { scenario2 with reach_limit_ := false } 1000 0 100 1 rfl rfl rfl).2
        "out of device memory" rfl rfl),
    rfl⟩

/-- C6 (a device failure that is not out-of-memory does not trigger the
fallback).  With the latch clear, when the device tier's `Allocate` throws an
exception `e` that is not `BadAlloc`, `AllocateImpl(size)` throws that same `e`;
the pinned pool is not called, no telemetry record is pushed, and the latch
stays clear. -/
theorem non_oom_device_failure_propagates (dev : Allocator δ) (host : BuddyAllocator η)
    (s : State δ η) (d : δ) (h : η) (size addr : Nat) (e : Exception)
    (hl : s.reach_limit_ = false) (hd : s.device_allocator_ = some d)
    (hh : s.host_allocator_ = some h) (ha : (dev.Allocate d size).1 = .error e)
    (he : e.isBadAlloc = false) :
    AllocateImpl dev host s size addr =
      (.threw e,
        { reach_limit_ := false
          device_id_ := s.device_id_
          device_allocator_ := some (dev.Allocate d size).2
          host_allocator_ := s.host_allocator_
          records := s.records
          calls := s.calls ++ [.deviceAllocate size] }) := by
  rw [AllocateImpl_device_other dev host s d h size addr e hl hd hh ha he]
  simp [hl]

/-- C6 at a concrete input: the first request to `flakyDevice` fails with an
error that is not `BadAlloc`; the call throws it, with the pool untouched. -/
theorem non_oom_device_failure_example :
    (flakyDevice.Allocate 0 64).1 = .error (.Other "unspecified launch failure") ∧
    (Exception.Other "unspecified launch failure").isBadAlloc = false ∧
    AllocateImpl flakyDevice pinnedPool scenario1 64 1 =
      (.threw (.Other "unspecified launch failure"),
        { reach_limit_ := false
          device_id_ := 0
          device_allocator_ := some 1
          host_allocator_ := some 4096
          records := []
          calls := [.deviceAllocate 64] }) :=
  ⟨rfl, rfl,
    non_oom_device_failure_propagates flakyDevice pinnedPool scenario1 0 4096 64 1
      (.Other "unspecified launch failure") rfl rfl rfl rfl rfl⟩

/-- C7 (free routing by origin tag).  `FreeImpl(a)` dispatches on `a.place`
only.  On a device place (the instance having a device allocator) exactly the
device allocator's `Free(a)` is called, and the pinned pool and the recorder are
untouched.  On `CUDAPinnedPlace` (the instance having its pinned pool) the
pool's `Free(a.ptr)` is called, the telemetry record of `(a, CUDAPinnedPlace)`
is popped (none with that key remains), the record is deleted, and the device
allocator is untouched.  On any other place nothing is called and nothing
changes.  The latch has no influence and keeps its value. -/
theorem free_routing (dev : Allocator δ) (host : BuddyAllocator η) (s : State δ η)
    (a : Allocation) :
    (∀ id d, a.place = .CUDAPlace id → s.device_allocator_ = some d →
      FreeImpl dev host s a =
        (.returned (),
          { reach_limit_ := s.reach_limit_
            device_id_ := s.device_id_
            device_allocator_ := some (dev.Free d a)
            host_allocator_ := s.host_allocator_
            records := s.records
            calls := s.calls ++ [.deviceFree a] })) ∧
    (∀ h, a.place = .CUDAPinnedPlace → s.host_allocator_ = some h →
      FreeImpl dev host s a =
        (.returned (),
          { reach_limit_ := s.reach_limit_
            device_id_ := s.device_id_
            device_allocator_ := s.device_allocator_
            host_allocator_ := some (host.Free h a.ptr)
            records := PopMemRecord s.records a.addr .CUDAPinnedPlace
            calls := s.calls ++
              [.hostFree a.ptr, .popMemRecord a.addr .CUDAPinnedPlace,
               .deleteAllocation a] }) ∧
      ∀ r ∈ PopMemRecord s.records a.addr .CUDAPinnedPlace,
        ¬ (r.addr = a.addr ∧ r.place = .CUDAPinnedPlace)) ∧
    (is_gpu_place a.place = false → is_cuda_pinned_place a.place = false →
      FreeImpl dev host s a = (.returned (), s)) ∧
    (∀ b, FreeImpl dev host { s with reach_limit_ := b } a =
      ((FreeImpl dev host s a).1, { (FreeImpl dev host s a).2 with reach_limit_ := b })) := by
  refine ⟨?_, ?_, ?_, ?_⟩
  · intro id d hp hd
    simp [FreeImpl, hp, hd, is_gpu_place]
  · intro h hp hh
    refine ⟨by simp [FreeImpl, hp, hh, is_gpu_place, is_cuda_pinned_place], ?_⟩
    intro r hr
    simp only [PopMemRecord, List.mem_filter] at hr
    intro hk
    simp [hk.1, hk.2] at hr
  · intro hg hc
    simp [FreeImpl, hg, hc]
  · intro b
    obtain ⟨l, i, da, ha, rc, cl⟩ := s
    cases hg : is_gpu_place a.place <;> cases hc : is_cuda_pinned_place a.place <;>
      cases da <;> cases ha <;> simp [FreeImpl, hg, hc]

/-- C7, Scenario 3: freeing the pinned record that Scenario 1 handed out calls
the pool's free with its pointer, pops its telemetry record and deletes it; the
device allocator is not called.  Freeing the device record of Scenario 1 calls
the device allocator only. -/
theorem free_routing_scenario3 :
    FreeImpl (capacityDevice 0 1000) pinnedPool
        { scenario2 with records := [⟨2, .CUDAPinnedPlace, 600⟩] }
        ⟨2, 12288, 600, .CUDAPinnedPlace⟩ =
      (.returned (),
        { reach_limit_ := true
          device_id_ := 0
          device_allocator_ := some 1000
          host_allocator_ := some 0
          records := []
          calls := [.hostFree 12288, .popMemRecord 2 .CUDAPinnedPlace,
                    .deleteAllocation ⟨2, 12288, 600, .CUDAPinnedPlace⟩] }) ∧
    FreeImpl (capacityDevice 0 1000) pinnedPool scenario2 ⟨1000, 4096, 600, .CUDAPlace 0⟩ =
      (.returned (),
        { reach_limit_ := true
          device_id_ := 0
          device_allocator_ := some 400
          host_allocator_ := some 0
          records := []
          calls := [.deviceFree ⟨1000, 4096, 600, .CUDAPlace 0⟩] }) :=
  ⟨((free_routing (capacityDevice 0 1000) pinnedPool
      { scenario2 with records := [⟨2, .CUDAPinnedPlace, 600⟩] }
      ⟨2, 12288, 600, .CUDAPinnedPlace⟩).2.1 0 rfl rfl).1,
    (free_routing (capacityDevice 0 1000) pinnedPool scenario2
      ⟨1000, 4096, 600, .CUDAPlace 0⟩).1 0 1000 rfl rfl⟩

/-- C8 (release accounting).  `ReleaseImpl(place)` returns, unmodified, the
byte count of the device allocator's `Release(place)` on a device place (the
pinned pool is not called), the byte count of the pinned pool's `Release()` on
`CUDAPinnedPlace` (the device allocator is not called), and `0` with nothing
called and no state change on any other place.  The latch has no influence and
keeps its value. -/
theorem release_accounting (dev : Allocator δ) (host : BuddyAllocator η) (s : State δ η)
    (place : Place) :
    (∀ id d, place = .CUDAPlace id → s.device_allocator_ = some d →
      ReleaseImpl dev host s place =
        (.returned (dev.Release d place).1,
          { reach_limit_ := s.reach_limit_
            device_id_ := s.device_id_
            device_allocator_ := some (dev.Release d place).2
            host_allocator_ := s.host_allocator_
            records := s.records
            calls := s.calls ++ [.deviceRelease place] })) ∧
    (∀ h, place = .CUDAPinnedPlace → s.host_allocator_ = some h →
      ReleaseImpl dev host s place =
        (.returned (host.Release h).1,
          { reach_limit_ := s.reach_limit_
            device_id_ := s.device_id_
            device_allocator_ := s.device_allocator_
            host_allocator_ := some (host.Release h).2
            records := s.records
            calls := s.calls ++ [.hostRelease] })) ∧
    (is_gpu_place place = false → is_cuda_pinned_place place = false →
      ReleaseImpl dev host s place = (.returned 0, s)) ∧
    (∀ b, ReleaseImpl dev host { s with reach_limit_ := b } place =
      ((ReleaseImpl dev host s place).1,
        { (ReleaseImpl dev host s place).2 with reach_limit_ := b })) := by
  refine ⟨?_, ?_, ?_, ?_⟩
  · intro id d hp hd
    simp [ReleaseImpl, hp, hd, is_gpu_place]
  · intro h hp hh
    simp [ReleaseImpl, hp, hh, is_gpu_place, is_cuda_pinned_place]
  · intro hg hc
    simp [ReleaseImpl, hg, hc]
  · intro b
    obtain ⟨l, i, da, ha, rc, cl⟩ := s
    cases hg : is_gpu_place place <;> cases hc : is_cuda_pinned_place place <;>
      cases da <;> cases ha <;> simp [ReleaseImpl, hg, hc]

/-- C8, Scenario 4: `release(Device)` returns what the device allocator
reports (1000 here), `release(HostPinned)` what the pinned pool reports (4096
here), and `release` on the CPU place returns 0 and changes nothing. -/
theorem release_accounting_scenario4 :
    ((capacityDevice 0 1000).Release 0 (.CUDAPlace 0)).1 = 1000 ∧
    ReleaseImpl (capacityDevice 0 1000) pinnedPool scenario1 (.CUDAPlace 0) =
      (.returned 1000,
        { reach_limit_ := false
          device_id_ := 0
          device_allocator_ := some 0
          host_allocator_ := some 4096
          records := []
          calls := [.deviceRelease (.CUDAPlace 0)] }) ∧
    ReleaseImpl (capacityDevice 0 1000) pinnedPool scenario1 .CUDAPinnedPlace =
      (.returned 4096,
        { reach_limit_ := false
          device_id_ := 0
          device_allocator_ := some 0
          host_allocator_ := some 0
          records := []
          calls := [.hostRelease] }) ∧
    ReleaseImpl (capacityDevice 0 1000) pinnedPool scenario1 .CPUPlace =
      (.returned 0, scenario1) :=
  ⟨rfl,
    (release_accounting (capacityDevice 0 1000) pinnedPool scenario1 (.CUDAPlace 0)).1
      0 0 rfl rfl,
    (release_accounting (capacityDevice 0 1000) pinnedPool scenario1 .CUDAPinnedPlace).2.1
      4096 rfl rfl,
    (release_accounting (capacityDevice 0 1000) pinnedPool scenario1 .CPUPlace).2.2.1
      rfl rfl⟩

/-- C9 as stated fails: an instance constructed with a null device allocator
is constructed without error, and when its first use is
`release(CUDAPinnedPlace)` the call returns the pool's byte count; on the CPU
place it returns 0.  No invalid-argument error is raised. -/
theorem null_device_first_use_release :
    (MixedMemBestFitAllocator 0 (none : Option Nat) (4096 : Nat) []).device_allocator_ = none ∧
    (ReleaseImpl (capacityDevice 0 1000) pinnedPool
        (MixedMemBestFitAllocator 0 none 4096 []) .CUDAPinnedPlace).1 = .returned 4096 ∧
    (ReleaseImpl (capacityDevice 0 1000) pinnedPool
        (MixedMemBestFitAllocator 0 none 4096 []) .CPUPlace).1 = .returned 0 :=
  ⟨rfl, rfl, rfl⟩

/-- C9, amended.  On an instance whose device allocator reference is null
(the constructor accepts it unchecked), every `AllocateImpl(size)`, in either
latch state, throws the invalid-argument error about the device allocator
before the latch is consulted: no backing allocator is called, no telemetry
record is pushed, and the whole state, latch included, is unchanged.  In
particular this is so on the freshly constructed instance.  `ReleaseImpl` and
`FreeImpl` on a place that is not a device place do not consult the device
allocator reference and return normally. -/
theorem null_device_allocate_invalid (dev : Allocator δ) (host : BuddyAllocator η)
    (s : State δ η) (size addr : Nat) (hd : s.device_allocator_ = none) :
    AllocateImpl dev host s size addr =
      (.threw (.InvalidArgument
        "Underlying device allocator of MixedMemBestFitAllocator is nullptr"), s) ∧
    (∀ (device_id : Int) (pool : η) (records : List MemRecord),
      AllocateImpl dev host (MixedMemBestFitAllocator device_id none pool records) size addr =
        (.threw (.InvalidArgument
          "Underlying device allocator of MixedMemBestFitAllocator is nullptr"),
         MixedMemBestFitAllocator device_id none pool records)) ∧
    (∀ place h, is_gpu_place place = false → s.host_allocator_ = some h →
      ∃ n, (ReleaseImpl dev host s place).1 = .returned n) ∧
    (∀ a h, is_gpu_place a.place = false → s.host_allocator_ = some h →
      (FreeImpl dev host s a).1 = .returned ()) := by
  refine ⟨?_, ?_, ?_, ?_⟩
  · simp [AllocateImpl, hd]
  · intro device_id pool records
    simp [AllocateImpl, MixedMemBestFitAllocator]
  · intro place h hg hh
    cases hc : is_cuda_pinned_place place
    · exact ⟨0, by simp [ReleaseImpl, hg, hc]⟩
    · exact ⟨(host.Release h).1, by simp [ReleaseImpl, hg, hc, hh]⟩
  · intro a h hg hh
    cases hc : is_cuda_pinned_place a.place <;> simp [FreeImpl, hg, hc, hh]

/-- C9, amended, at concrete inputs: a null device allocator with the latch
set, and with the latch clear. -/
theorem null_device_allocate_invalid_example :
    ({ scenario2 with device_allocator_ := none } : State Nat Nat).device_allocator_ = none ∧
    AllocateImpl (capacityDevice 0 1000) pinnedPool
        { scenario2 with device_allocator_ := none } 100 1 =
      (.threw (.InvalidArgument
        "Underlying device allocator of MixedMemBestFitAllocator is nullptr"),
       { scenario2 with device_allocator_ := none }) ∧
    AllocateImpl (capacityDevice 0 1000) pinnedPool
        { scenario1 with device_allocator_ := none } 100 1 =
      (.threw (.InvalidArgument
        "Underlying device allocator of MixedMemBestFitAllocator is nullptr"),
       { scenario1 with device_allocator_ := none }) :=
  ⟨rfl,
    (null_device_allocate_invalid (capacityDevice 0 1000) pinnedPool
      { scenario2 with device_allocator_ := none } 100 1 rfl).1,
    (null_device_allocate_invalid (capacityDevice 0 1000) pinnedPool
      { scenario1 with device_allocator_ := none } 100 1 rfl).1⟩

/-- C2 as stated fails when "a device-tier failure" is any failure: the first
`allocate` observes a device failure that is not out-of-memory (it is thrown to
the caller and the latch stays clear); the next `allocate` calls the device
allocator again and returns a record with a device place. -/
theorem device_failure_without_degradation :
    (AllocateImpl flakyDevice pinnedPool scenario1 64 1).1
        = .threw (.Other "unspecified launch failure") ∧
    (AllocateImpl flakyDevice pinnedPool scenario1 64 1).2.reach_limit_ = false ∧
    AllocateImpl flakyDevice pinnedPool
        (AllocateImpl flakyDevice pinnedPool scenario1 64 1).2 64 2 =
      (.returned (some ⟨1001, 4097, 64, .CUDAPlace 0⟩),
        { reach_limit_ := false
          device_id_ := 0
          device_allocator_ := some 2
          host_allocator_ := some 4096
          records := []
          calls := [.deviceAllocate 64, .deviceAllocate 64] }) :=
  ⟨rfl, rfl, rfl⟩

/-- C2, amended.  Once an `allocate` call on an instance has observed a
device-tier out-of-memory failure (`BadAlloc`), then after any further sequence
of allocate / free / release calls the latch is set, and every `allocate` call,
for every size, uses the pinned pool only: it calls nothing on the device
allocator and leaves it untouched, whatever the device would answer now, and
every record it returns has place `CUDAPinnedPlace`. -/
theorem degraded_uses_host_only (dev : Allocator δ) (host : BuddyAllocator η)
    (s : State δ η) (d : δ) (h : η) (size0 addr0 : Nat) (msg : String)
    (hl : s.reach_limit_ = false) (hd : s.device_allocator_ = some d)
    (hh : s.host_allocator_ = some h)
    (ha : (dev.Allocate d size0).1 = .error (.BadAlloc msg))
    (ops : List Op) (size addr : Nat) :
    (run dev host (AllocateImpl dev host s size0 addr0).2 ops).reach_limit_ = true ∧
    (AllocateImpl dev host (run dev host (AllocateImpl dev host s size0 addr0).2 ops)
        size addr).2.device_allocator_ =
      (run dev host (AllocateImpl dev host s size0 addr0).2 ops).device_allocator_ ∧
    (∃ cs,
      (AllocateImpl dev host (run dev host (AllocateImpl dev host s size0 addr0).2 ops)
          size addr).2.calls =
        (run dev host (AllocateImpl dev host s size0 addr0).2 ops).calls ++ cs ∧
      ∀ n, Call.deviceAllocate n ∉ cs) ∧
    (∀ a,
      (AllocateImpl dev host (run dev host (AllocateImpl dev host s size0 addr0).2 ops)
          size addr).1 = .returned a →
      ∃ x, a = some x ∧ x.place = .CUDAPinnedPlace ∧ x.size = size) := by
  have h1 : (AllocateImpl dev host s size0 addr0).2.reach_limit_ = true := by
    rw [AllocateImpl_fallback dev host s d h size0 addr0 msg hl hd hh ha, hostAttempt_latch]
  have h2 := run_latch dev host ops _ h1
  exact ⟨h2, AllocateImpl_degraded_host_only dev host _ size addr h2⟩

/-- C2, amended, on Scenario 1 continued: after the second request has met
`BadAlloc`, the pinned record is freed and the device record too (the device
pool is empty again); a third request of 8 bytes still goes to the pinned
pool. -/
theorem degraded_uses_host_only_example :
    ((capacityDevice 0 1000).Allocate 600 600).1 = .error (.BadAlloc "out of device memory") ∧
    (run (capacityDevice 0 1000) pinnedPool
      (AllocateImpl (capacityDevice 0 1000) pinnedPool
        (AllocateImpl (capacityDevice 0 1000) pinnedPool scenario1 600 1).2 600 2).2
      [.free ⟨2, 12288, 600, .CUDAPinnedPlace⟩,
       .free ⟨1000, 4096, 600, .CUDAPlace 0⟩]).device_allocator_ = some 0 ∧
    (AllocateImpl (capacityDevice 0 1000) pinnedPool
      (run (capacityDevice 0 1000) pinnedPool
        (AllocateImpl (capacityDevice 0 1000) pinnedPool
          (AllocateImpl (capacityDevice 0 1000) pinnedPool scenario1 600 1).2 600 2).2
        [.free ⟨2, 12288, 600, .CUDAPinnedPlace⟩,
         .free ⟨1000, 4096, 600, .CUDAPlace 0⟩]) 8 3).1
      = .returned (some ⟨3, 11688, 8, .CUDAPinnedPlace⟩) ∧
    (run (capacityDevice 0 1000) pinnedPool
      (AllocateImpl (capacityDevice 0 1000) pinnedPool
        (AllocateImpl (capacityDevice 0 1000) pinnedPool scenario1 600 1).2 600 2).2
      [.free ⟨2, 12288, 600, .CUDAPinnedPlace⟩,
       .free ⟨1000, 4096, 600, .CUDAPlace 0⟩]).reach_limit_ = true :=
  ⟨rfl, rfl, rfl,
    (degraded_uses_host_only (capacityDevice 0 1000) pinnedPool
      (AllocateImpl (capacityDevice 0 1000) pinnedPool scenario1 600 1).2 600 4096 600 2
      "out of device memory" rfl rfl rfl rfl
      [.free ⟨2, 12288, 600, .CUDAPinnedPlace⟩, .free ⟨1000, 4096, 600, .CUDAPlace 0⟩]
      8 3).1⟩

/-- C4 as stated fails: the instance is constructed with device identifier 0
over a backing allocator that serves device 1; the latch is clear, the device
allocation succeeds, and the record returned has place `CUDAPlace 1`, not
`CUDAPlace 0`. -/
theorem device_place_is_the_backing_tag :
    scenario1.device_id_ = 0 ∧ scenario1.reach_limit_ = false ∧
    (AllocateImpl (capacityDevice 1 1000) pinnedPool scenario1 600 1).1
      = .returned (some ⟨1000, 4096, 600, .CUDAPlace 1⟩) ∧
    Place.CUDAPlace 1 ≠ Place.CUDAPlace scenario1.device_id_ :=
  ⟨rfl, rfl, rfl, by decide⟩

/-- C4, amended.  With the latch clear, when the backing device allocator's
`Allocate` succeeds, `AllocateImpl(size)` returns exactly the record that
allocator produced, place included (`device_id_` plays no part), and takes no
further step: the pinned pool is not called, no telemetry record is pushed, the
latch stays clear.  And every record a successful `AllocateImpl` returns is
either the device allocator's own record, handed on unchanged, or a new record
with place `CUDAPinnedPlace` around the pointer the pinned pool supplied; so
over a backing allocator that tags its records with a device place, the
returned place is a device place exactly when the device tier supplied the
memory and `CUDAPinnedPlace` exactly when the pinned pool did. -/
theorem device_path_returns_backing_record (dev : Allocator δ) (host : BuddyAllocator η)
    (s : State δ η) (size addr : Nat) :
    (∀ d h a, s.reach_limit_ = false → s.device_allocator_ = some d →
      s.host_allocator_ = some h → (dev.Allocate d size).1 = .ok a →
      AllocateImpl dev host s size addr =
        (.returned a,
          { reach_limit_ := false
            device_id_ := s.device_id_
            device_allocator_ := some (dev.Allocate d size).2
            host_allocator_ := s.host_allocator_
            records := s.records
            calls := s.calls ++ [.deviceAllocate size] })) ∧
    (∀ x, (AllocateImpl dev host s size addr).1 = .returned (some x) →
      (∃ d, s.reach_limit_ = false ∧ s.device_allocator_ = some d ∧
        (dev.Allocate d size).1 = .ok (some x)) ∨
      (∃ h, s.host_allocator_ = some h ∧ (host.Alloc h size).1 ≠ 0 ∧
        x = ⟨addr, (host.Alloc h size).1, size, .CUDAPinnedPlace⟩)) ∧
    ((∀ d n y, (dev.Allocate d n).1 = .ok (some y) → is_gpu_place y.place = true) →
      ∀ x, (AllocateImpl dev host s size addr).1 = .returned (some x) →
        (is_gpu_place x.place = true ↔
          ∃ d, s.reach_limit_ = false ∧ s.device_allocator_ = some d ∧
            (dev.Allocate d size).1 = .ok (some x)) ∧
        (x.place = .CUDAPinnedPlace ↔
          ∃ h, s.host_allocator_ = some h ∧ (host.Alloc h size).1 ≠ 0 ∧
            x = ⟨addr, (host.Alloc h size).1, size, .CUDAPinnedPlace⟩)) := by
  have part2 : ∀ x, (AllocateImpl dev host s size addr).1 = .returned (some x) →
      (∃ d, s.reach_limit_ = false ∧ s.device_allocator_ = some d ∧
        (dev.Allocate d size).1 = .ok (some x)) ∨
      (∃ h, s.host_allocator_ = some h ∧ (host.Alloc h size).1 ≠ 0 ∧
        x = ⟨addr, (host.Alloc h size).1, size, .CUDAPinnedPlace⟩) := ?_
  refine ⟨?_, part2, ?_⟩
  · intro d h a hl hd hh ha
    rw [AllocateImpl_device_ok dev host s d h size addr a hl hd hh ha]
    simp [hl]
  · intro htag x hx
    have hdev : ∀ d, (dev.Allocate d size).1 = .ok (some x) → is_gpu_place x.place = true :=
      fun d hd => htag d size x hd
    have hhost : ∀ h, x = ⟨addr, (host.Alloc h size).1, size, .CUDAPinnedPlace⟩ →
        x.place = .CUDAPinnedPlace := fun h hx => by rw [hx]
    constructor
    · constructor
      · intro hg
        rcases part2 x hx with hD | ⟨h, _, _, hH⟩
        · exact hD
        · rw [hhost h hH] at hg
          simp [is_gpu_place] at hg
      · rintro ⟨d, _, _, hD⟩
        exact hdev d hD
    · constructor
      · intro hp
        rcases part2 x hx with ⟨d, _, _, hD⟩ | hH
        · have hg := hdev d hD
          rw [hp] at hg
          simp [is_gpu_place] at hg
        · exact hH
      · rintro ⟨h, _, _, hH⟩
        exact hhost h hH
  · intro x hx
    cases hd : s.device_allocator_ with
    | none => simp [AllocateImpl, hd] at hx
    | some d =>
      cases hh : s.host_allocator_ with
      | none => simp [AllocateImpl, hd, hh] at hx
      | some h =>
        have host_case : ∀ t : State δ η, t.host_allocator_ = some h →
            (hostAttempt host t size addr).1 = .returned (some x) →
            (host.Alloc h size).1 ≠ 0 ∧
              x = ⟨addr, (host.Alloc h size).1, size, .CUDAPinnedPlace⟩ := by
          intro t ht hr
          by_cases hp : (host.Alloc h size).1 = 0
          · rw [hostAttempt_null host t h size addr ht hp] at hr
            simp at hr
          · rw [hostAttempt_ok host t h size addr ht hp] at hr
            simp at hr
            exact ⟨hp, hr.symm⟩
        cases hl : s.reach_limit_ with
        | true =>
          rw [AllocateImpl_degraded dev host s d h size addr hl hd hh] at hx
          exact Or.inr ⟨h, rfl, host_case s hh hx⟩
        | false =>
          rcases hr : (dev.Allocate d size).1 with e | a
          · cases hb : e.isBadAlloc
            · rw [AllocateImpl_device_other dev host s d h size addr e hl hd hh hr hb] at hx
              simp at hx
            · cases e <;> simp [Exception.isBadAlloc] at hb
              rename_i msg
              rw [AllocateImpl_fallback dev host s d h size addr msg hl hd hh hr] at hx
              exact Or.inr ⟨h, rfl, host_case _ (by exact hh) hx⟩
          · rw [AllocateImpl_device_ok dev host s d h size addr a hl hd hh hr] at hx
            simp at hx
            exact Or.inl ⟨d, rfl, rfl, by rw [hr, hx]⟩

/-- C4, amended, at concrete inputs: over a backing allocator that serves
device 0 the first request of Scenario 1 returns that allocator's record, with
place `CUDAPlace 0`; over one that serves device 1 the place is
`CUDAPlace 1`. -/
theorem device_path_example :
    ((capacityDevice 0 1000).Allocate 0 600).1 = .ok (some ⟨1000, 4096, 600, .CUDAPlace 0⟩) ∧
    AllocateImpl (capacityDevice 0 1000) pinnedPool scenario1 600 1 =
      (.returned (some ⟨1000, 4096, 600, .CUDAPlace 0⟩),
        { reach_limit_ := false
          device_id_ := 0
          device_allocator_ := some 600
          host_allocator_ := some 4096
          records := []
          calls := [.deviceAllocate 600] }) ∧
    AllocateImpl (capacityDevice 1 1000) pinnedPool scenario1 600 1 =
      (.returned (some ⟨1000, 4096, 600, .CUDAPlace 1⟩),
        { reach_limit_ := false
          device_id_ := 0
          device_allocator_ := some 600
          host_allocator_ := some 4096
          records := []
          calls := [.deviceAllocate 600] }) :=
  ⟨rfl,
    (device_path_returns_backing_record (capacityDevice 0 1000) pinnedPool scenario1 600 1).1
      0 4096 _ rfl rfl rfl rfl,
    (device_path_returns_backing_record (capacityDevice 1 1000) pinnedPool scenario1 600 1).1
      0 4096 _ rfl rfl rfl rfl⟩

/-- C10 (`AllocateImpl` never returns a null record).  Over a device allocator
that returns a non-null record whenever it succeeds, for every state, size and
behaviour of the two tiers, `AllocateImpl(size)` either returns a non-null
record or throws; it does not return `nullptr`.  The trailing `return nullptr`
is unreachable: whenever the device attempt lets control reach line 59, the
latch is set, so the host branch is entered. -/
theorem allocate_never_null (dev : Allocator δ) (host : BuddyAllocator η)
    (hnn : ∀ d n, (dev.Allocate d n).1 ≠ .ok none) (s : State δ η) (size addr : Nat) :
    (AllocateImpl dev host s size addr).1 ≠ .returned none ∧
    ((∃ x, (AllocateImpl dev host s size addr).1 = .returned (some x)) ∨
      (∃ e, (AllocateImpl dev host s size addr).1 = .threw e)) ∧
    (∀ d s1, deviceAttempt dev s d size = .inr s1 → s1.reach_limit_ = true) := by
  have key : (∃ x, (AllocateImpl dev host s size addr).1 = .returned (some x)) ∨
      (∃ e, (AllocateImpl dev host s size addr).1 = .threw e) := by
    cases hd : s.device_allocator_ with
    | none =>
      exact Or.inr ⟨.InvalidArgument
        "Underlying device allocator of MixedMemBestFitAllocator is nullptr",
        by simp [AllocateImpl, hd]⟩
    | some d =>
      cases hh : s.host_allocator_ with
      | none =>
        exact Or.inr ⟨.InvalidArgument
          "Underlying host allocator of MixedMemBestFitAllocator is nullptr",
          by simp [AllocateImpl, hd, hh]⟩
      | some h =>
        have host_case : ∀ t : State δ η, t.host_allocator_ = some h →
            (∃ x, (hostAttempt host t size addr).1 = .returned (some x)) ∨
              (∃ e, (hostAttempt host t size addr).1 = .threw e) := by
          intro t ht
          by_cases hp : (host.Alloc h size).1 = 0
          · rw [hostAttempt_null host t h size addr ht hp]
            exact Or.inr ⟨_, rfl⟩
          · rw [hostAttempt_ok host t h size addr ht hp]
            exact Or.inl ⟨_, rfl⟩
        cases hl : s.reach_limit_ with
        | true =>
          rw [AllocateImpl_degraded dev host s d h size addr hl hd hh]
          exact host_case s hh
        | false =>
          rcases hr : (dev.Allocate d size).1 with e | a
          · cases hb : e.isBadAlloc
            · rw [AllocateImpl_device_other dev host s d h size addr e hl hd hh hr hb]
              exact Or.inr ⟨_, rfl⟩
            · cases e <;> simp [Exception.isBadAlloc] at hb
              rename_i msg
              rw [AllocateImpl_fallback dev host s d h size addr msg hl hd hh hr]
              exact host_case _ (by exact hh)
          · rw [AllocateImpl_device_ok dev host s d h size addr a hl hd hh hr]
            cases a with
            | none => exact absurd hr (hnn d size)
            | some x => exact Or.inl ⟨x, rfl⟩
  refine ⟨?_, key, fun d s1 => deviceAttempt_inr_latch dev s d size s1⟩
  intro hnull
  rcases key with ⟨x, hx⟩ | ⟨e, he⟩
  · rw [hx] at hnull
    simp at hnull
  · rw [he] at hnull
    simp at hnull

/-- C10 at concrete inputs: `capacityDevice` returns a record whenever it
succeeds; the calls of Scenarios 1 and 2 return a record or throw. -/
theorem allocate_never_null_example :
    (∀ d n, ((capacityDevice 0 1000).Allocate d n).1 ≠ .ok none) ∧
    (AllocateImpl (capacityDevice 0 1000) pinnedPool scenario1 600 1).1 ≠ .returned none ∧
    (AllocateImpl (capacityDevice 0 1000) pinnedPool scenario2 100 1).1 ≠ .returned none :=
  ⟨fun d n => by simp only [capacityDevice]; split <;> simp,
    (allocate_never_null (capacityDevice 0 1000) pinnedPool
      (fun d n => by simp only [capacityDevice]; split <;> simp) scenario1 600 1).1,
    (allocate_never_null (capacityDevice 0 1000) pinnedPool
      (fun d n => by simp only [capacityDevice]; split <;> simp) scenario2 100 1).1⟩

end MixedMem
